import Mathlib

/-!
# Verification of the trade-ia signal-generation and risk-validation pipeline

Shallow embedding of the AI-engine service of the `trade-ia` trading platform
(`services/ai-engine/app`), covering:

* `DeepSeekClient._run_prediction`, `_create_signal`, `_aggregate_signals` and
  `predict_signals` (`app/utils/deepseek_client.py`);
* `RiskManager.validate_signal` and `_apply_risk_adjustments`
  (`app/utils/risk_manager.py`);
* the `RiskParameters` pydantic model (`app/models/signals.py`);
* `IAEngine._process_signal`, `_is_signal_cached`, `_cache_signal`
  (`app/services/ia_engine.py`).

Python floats are modelled as exact rationals (`ℚ`); the only transcendental
operation, `np.tanh`, is modelled by `Real.tanh` on the reals.  Dictionary
fields read with `.get(key, default)` are modelled as `Option` fields together
with `Option.getD`.
-/

namespace TradeIA

/-- Signal classification labels used by the source (plain strings there).
`_create_signal` never builds a candidate out of a `HOLD` prediction, and
`_aggregate_signals` partitions on the substring tests `"BUY" in s` /
`"SELL" in s`, which on these five strings coincide with `isBuyKind` /
`isSellKind` below. -/
inductive SignalKind where
  | STRONG_BUY
  | BUY
  | SELL
  | STRONG_SELL
  | HOLD
deriving DecidableEq, Repr

/-- `"BUY" in signal_type` for the five signal-type strings of the source. -/
def isBuyKind : SignalKind → Bool
  | .STRONG_BUY => true
  | .BUY => true
  | _ => false

/-- `"SELL" in signal_type` for the five signal-type strings of the source. -/
def isSellKind : SignalKind → Bool
  | .STRONG_SELL => true
  | .SELL => true
  | _ => false

/-- The string rendering of a signal type, as it appears in the Python dicts. -/
def SignalKind.str : SignalKind → String
  | .STRONG_BUY => "STRONG_BUY"
  | .BUY => "BUY"
  | .SELL => "SELL"
  | .STRONG_SELL => "STRONG_SELL"
  | .HOLD => "HOLD"

/-- A rectangular 2-D numpy array of features, as produced by
`normalize_timeseries` and consumed by `_run_prediction`.  `ncols` is the
second component of the numpy shape; rectangularity is part of the numpy
array representation, so it is carried as a proof field. -/
structure FeatMatrix where
  rows : List (List ℚ)
  ncols : ℕ
  rect : ∀ r ∈ rows, r.length = ncols

/-- `l[-n:]` for a Python list or 1-D array slice. -/
def lastN (n : ℕ) (l : List α) : List α := l.drop (l.length - n)

/-- `np.mean` over a 1-D array, in exact arithmetic
(`List.length` coerces to `ℚ`; the source never takes the mean of an empty
slice on a non-raising path). -/
def npMean (l : List ℚ) : ℚ := l.sum / (l.length : ℚ)

/-- Market context dictionary as used by `_run_prediction`: only
`market_context.get('vix_level', 20)` is ever read.  A `None` or empty
(hence falsy) dictionary is modelled as `none` at the call sites. -/
structure MarketCtx where
  vix_level : Option ℚ

/-- `market_context.get('vix_level', 20)`. -/
def MarketCtx.vix (c : MarketCtx) : ℚ := c.vix_level.getD 20

/-- `np.mean(features[-20:, 3])` — the mean close percentage-change of the
last 20 rows (`close_pct` is feature column 3). -/
def recent_trend (m : FeatMatrix) : ℚ :=
  npMean ((lastN 20 m.rows).map (fun r => r.getD 3 0))

/-- `features[-1, 5] * 100 if len(features[0]) > 5 else 50` — the RSI read
back from feature column 5 of the last row (by rectangularity,
`len(features[0])` equals `ncols` whenever the matrix is non-empty). -/
def rsi_read (m : FeatMatrix) : ℚ :=
  if 5 < m.ncols then ((m.rows.getLast?.getD []).getD 5 0) * 100 else 50

/-- The trend contribution to the raw score
(`score += 0.3` / `score -= 0.3`, lines 272-275 of `deepseek_client.py`). -/
def trendTerm (m : FeatMatrix) : ℚ :=
  if recent_trend m > 1/1000 then 3/10
  else if recent_trend m < -(1/1000) then -(3/10)
  else 0

/-- The RSI mean-reversion contribution to the raw score
(`score += 0.4` / `score -= 0.4`, lines 278-281 of `deepseek_client.py`). -/
def rsiTerm (m : FeatMatrix) : ℚ :=
  if rsi_read m < 30 then 4/10
  else if rsi_read m > 70 then -(4/10)
  else 0

/-- `market_context` is truthy and `market_context.get('vix_level', 20) > 30`. -/
def vixHigh : Option MarketCtx → Bool
  | some c => c.vix > 30
  | none => false

/-- The raw score accumulated by `_run_prediction` before the `np.tanh`
compression: trend term, then RSI term, then the 0.7 attenuation when the
VIX context exceeds 30 (lines 269-286 of `deepseek_client.py`). -/
def rawScore (m : FeatMatrix) (ctx : Option MarketCtx) : ℚ :=
  let s := trendTerm m + rsiTerm m
  if vixHigh ctx then s * (7/10) else s

/-- A prediction dictionary as returned by `_run_prediction`.  The
`features` sub-dictionary (`rsi`, `trend`, `volatility`) is only consumed by
`_generate_reasoning`, which produces free text no claim refers to, so it is
not carried here. -/
structure Prediction where
  score : ℝ
  confidence : ℝ
  signal_type : SignalKind
  timeframe : String

/-- Default classification thresholds of `DeepSeekClient.__init__` /
`_get_default_config`: `strong_buy = 0.85`, `buy = 0.65`, `sell = -0.65`,
`strong_sell = -0.85`. -/
noncomputable def strongBuyThreshold : ℝ := 17/20
/-- Default `buy` threshold, `0.65`. -/
noncomputable def buyThreshold : ℝ := 13/20
/-- Default `sell` threshold, `-0.65`. -/
noncomputable def sellThreshold : ℝ := -(13/20)
/-- Default `strong_sell` threshold, `-0.85`. -/
noncomputable def strongSellThreshold : ℝ := -(17/20)
/-- Default confidence floor (`thresholds.confidence`), `0.7`. -/
noncomputable def confidenceThreshold : ℝ := 7/10

/-- Embedding of `DeepSeekClient._run_prediction` (lines 246-326) under the
default configuration.  The `except` fallback (score 0, confidence 0,
`HOLD`) is taken exactly when the body raises: `features[-1]` raises
`IndexError` on an empty array, and `features[-20:, 3]` raises `IndexError`
when the array has fewer than 4 columns; every other statement of the body
is total.  Otherwise the body computes `score = np.tanh(raw)`,
`confidence = abs(score)` and classifies against the default thresholds. -/
noncomputable def run_prediction (m : FeatMatrix) (timeframe : String)
    (ctx : Option MarketCtx) : Prediction :=
  if m.rows = [] ∨ m.ncols < 4 then
    { score := 0, confidence := 0, signal_type := .HOLD, timeframe := timeframe }
  else
    let score : ℝ := Real.tanh ((rawScore m ctx : ℚ) : ℝ)
    { score := score
      confidence := |score|
      signal_type :=
        if score > strongBuyThreshold then .STRONG_BUY
        else if score > buyThreshold then .BUY
        else if score < strongSellThreshold then .STRONG_SELL
        else if score < sellThreshold then .SELL
        else .HOLD
      timeframe := timeframe }

/-- The values `_create_signal` and `predict_signals` read from a timeframe
DataFrame: its length (`len(data)`), `float(data['close'].iloc[-1])`, and
the last entry of `data.get('atr', data['close'].rolling(14).std())` — the
embedding carries the already-resolved ATR value rather than the column. -/
structure Df where
  numRows : ℕ
  lastClose : ℚ
  atr : ℚ

/-- A candidate signal dictionary as built by `_create_signal` (lines
328-367 of `deepseek_client.py`).  The `timestamp`, `technical_indicators`
and `reasoning` payload fields are free-form data no claim refers to and
are not carried. -/
structure CandidateSignal where
  signal_type : SignalKind
  confidence : ℝ
  score : ℝ
  entry_price : ℚ
  stop_loss : ℚ
  take_profit : ℚ
  risk_reward_ratio : ℚ
  timeframe : String

/-- Embedding of `DeepSeekClient._create_signal`: `None` for `HOLD`,
otherwise entry at the last close, stop at `±2·ATR`, target at `∓3·ATR`
(sign by direction), and `risk_reward_ratio = reward / risk if risk > 0
else 0`. -/
def create_signal (pred : Prediction) (data : Df) (timeframe : String) :
    Option CandidateSignal :=
  if pred.signal_type = .HOLD then none
  else
    let latest_price := data.lastClose
    let atr := data.atr
    let stop_loss :=
      if isBuyKind pred.signal_type then latest_price - 2 * atr
      else latest_price + 2 * atr
    let take_profit :=
      if isBuyKind pred.signal_type then latest_price + 3 * atr
      else latest_price - 3 * atr
    let risk := |latest_price - stop_loss|
    let reward := |take_profit - latest_price|
    some
      { signal_type := pred.signal_type
        confidence := pred.confidence
        score := pred.score
        entry_price := latest_price
        stop_loss := stop_loss
        take_profit := take_profit
        risk_reward_ratio := if risk > 0 then reward / risk else 0
        timeframe := timeframe }

/-- Python `max(xs, key=key)` on a non-empty list: scans left to right and
replaces the current maximum only on a strictly greater key, so the first
maximal element wins. -/
noncomputable def pyMax (key : α → ℝ) (x : α) (xs : List α) : α :=
  xs.foldl (fun b a => if key b < key a then a else b) x

/-- Embedding of `DeepSeekClient._aggregate_signals` (lines 403-424):
split into `"BUY" in signal_type` and `"SELL" in signal_type` sublists and
keep the highest-confidence element of each non-empty sublist. -/
noncomputable def aggregate_signals (signals : List CandidateSignal) :
    List CandidateSignal :=
  if signals.isEmpty then []
  else
    let buy_signals := signals.filter (fun s => isBuyKind s.signal_type)
    let sell_signals := signals.filter (fun s => isSellKind s.signal_type)
    (match buy_signals with
      | [] => []
      | x :: xs => [pyMax (fun s => s.confidence) x xs]) ++
    (match sell_signals with
      | [] => []
      | x :: xs => [pyMax (fun s => s.confidence) x xs])

/-- The per-timeframe loop of `DeepSeekClient.predict_signals` (lines
214-235): skip missing or short (`len < 50`) DataFrames, normalize, predict,
and keep the synthesized signal when the prediction's confidence reaches
the 0.70 floor.  `predict_signals` calls `self.normalize_timeseries`; the
normalizer is threaded as a function argument so the theorems below hold
for the source's normalizer and any other. -/
noncomputable def collect_signals (normalize : Df → FeatMatrix)
    (ctx : Option MarketCtx) : List (String × Option Df) → List CandidateSignal
  | [] => []
  | (timeframe, data) :: rest =>
    match data with
    | none => collect_signals normalize ctx rest
    | some df =>
      if df.numRows < 50 then collect_signals normalize ctx rest
      else
        let prediction := run_prediction (normalize df) timeframe ctx
        if prediction.confidence ≥ confidenceThreshold then
          (match create_signal prediction df timeframe with
            | some s => [s]
            | none => []) ++ collect_signals normalize ctx rest
        else collect_signals normalize ctx rest

/-- Embedding of `DeepSeekClient.predict_signals` (lines 196-244) under the
default configuration: the per-timeframe collection followed by
`_aggregate_signals`. -/
noncomputable def predict_signals (normalize : Df → FeatMatrix)
    (timeseries_data : List (String × Option Df)) (ctx : Option MarketCtx) :
    List CandidateSignal :=
  aggregate_signals (collect_signals normalize ctx timeseries_data)

/-- The `RiskParameters` pydantic model (`app/models/signals.py`, lines
101-115), with its exact field set.  Note there is no
`stop_loss_atr_multiplier` or `take_profit_atr_multiplier` field. -/
structure RiskParameters where
  max_position_size : ℚ
  max_risk_per_trade : ℚ
  stop_loss_percent : ℚ
  take_profit_percent : ℚ
  max_daily_trades : ℤ
  max_open_positions : ℤ
  max_correlation : ℚ
deriving DecidableEq, Repr

/-- `RiskParameters()` with every field at its declared default
(0.02, 0.01, 0.02, 0.05, 10, 5, 0.7), as built in
`IAEngine._process_signal`. -/
def defaultRiskParameters : RiskParameters :=
  { max_position_size := 1/50
    max_risk_per_trade := 1/100
    stop_loss_percent := 1/50
    take_profit_percent := 1/20
    max_daily_trades := 10
    max_open_positions := 5
    max_correlation := 7/10 }

/-- Constructing `RiskParameters(...)`: pydantic runs the
`validate_percentages` validator, which is declared for `max_position_size`
and `max_risk_per_trade` only and rejects a value `v` unless `0 < v <= 0.1`.
No other field is validated (the error text is the source's message,
transliterated to ASCII). -/
def mk_risk_parameters (max_position_size max_risk_per_trade
    stop_loss_percent take_profit_percent : ℚ)
    (max_daily_trades max_open_positions : ℤ) (max_correlation : ℚ) :
    Except String RiskParameters :=
  if ¬(0 < max_position_size ∧ max_position_size ≤ 1/10) then
    .error "Les pourcentages doivent etre entre 0 et 10%"
  else if ¬(0 < max_risk_per_trade ∧ max_risk_per_trade ≤ 1/10) then
    .error "Les pourcentages doivent etre entre 0 et 10%"
  else
    .ok
      { max_position_size := max_position_size
        max_risk_per_trade := max_risk_per_trade
        stop_loss_percent := stop_loss_percent
        take_profit_percent := take_profit_percent
        max_daily_trades := max_daily_trades
        max_open_positions := max_open_positions
        max_correlation := max_correlation }

/-- The `technical_indicators` sub-dictionary of a candidate dictionary, as
read by the risk manager (`.get("atr", 0)` and `.get("volatility", 0)`). -/
structure TechIndicators where
  atr : Option ℚ := none
  volatility : Option ℚ := none

/-- A candidate signal dictionary as consumed by
`RiskManager.validate_signal` and `IAEngine._process_signal`.  Every field
the source reads via `signal_data.get(...)` is an `Option`; a missing key
is `none`. -/
structure SignalData where
  signal_type : SignalKind
  position_size_percent : Option ℚ := none
  entry_price : Option ℚ := none
  stop_loss : Option ℚ := none
  technical_indicators : Option TechIndicators := none
  signal_strength : Option String := none
  risk_reward_ratio : Option ℚ := none

/-- The `SignalValidation` pydantic model (`app/models/signals.py`, lines
191-210).  Error, warning and recommendation strings are modelled by fixed
tags; the source interpolates numeric values into them, which no claim
refers to. -/
structure SignalValidation where
  is_valid : Bool
  validation_errors : List String
  risk_check_passed : Bool
  position_size_check_passed : Bool
  correlation_check_passed : Bool
  market_hours_check_passed : Bool
  liquidity_check_passed : Bool
  adjusted_position_size : Option ℚ := none
  adjusted_stop_loss : Option ℚ := none
  adjusted_take_profit : Option ℚ := none
  warnings : List String := []
  recommendations : List String := []

/-- The mutable counters of a `RiskManager` instance read by
`validate_signal`: `daily_trades_count` and `len(self.open_positions)`
(only the length of the positions list is ever used there). -/
structure RMState where
  daily_trades_count : ℤ := 0
  open_positions : ℕ := 0

/-- Embedding of `RiskManager._apply_risk_adjustments` (lines 150-181).
Its body first evaluates `risk_params.stop_loss_atr_multiplier` (when the
candidate carries a truthy ATR); `RiskParameters` declares no such field,
so the access raises `AttributeError`, the method's own
`except Exception` catches it, and `validation` is returned unchanged.
When the ATR is absent or zero the guarded blocks are skipped and
`validation` is again returned unchanged.  Either way the function is the
identity on `validation`; in particular `adjusted_stop_loss` and
`adjusted_take_profit` are never filled in. -/
def apply_risk_adjustments (validation : SignalValidation)
    (_signal_data : SignalData) (_risk_params : RiskParameters) :
    SignalValidation :=
  validation

/-- Embedding of `RiskManager._generate_recommendations` (lines 183-210). -/
def generate_recommendations (_validation : SignalValidation)
    (signal_data : SignalData) : List String :=
  let strength := signal_data.signal_strength.getD "MODERATE"
  let recs : List String :=
    if strength = "VERY_STRONG" then ["Signal tres fort"]
    else if strength = "WEAK" then ["Signal faible"]
    else []
  let rr := signal_data.risk_reward_ratio.getD 0
  let recs :=
    if rr < 3/2 then recs ++ ["Risk Reward ratio faible"]
    else if rr > 3 then recs ++ ["Risk Reward ratio excellent"]
    else recs
  let volatility :=
    ((signal_data.technical_indicators.getD {}).volatility).getD 0
  if volatility > 1/20 then recs ++ ["Volatilite elevee"] else recs

/-- Embedding of `RiskManager.validate_signal` (lines 31-118).  The checks
run in source order on a validation record that starts all-passing; the
`_check_correlation`, `_check_market_hours` and `_check_liquidity` stubs
(lines 120-148) all return `True`, so their failure branches never fire and
are omitted.  The final adjustment step runs only when the record is still
valid, and is the identity (see `apply_risk_adjustments`). -/
def validate_signal (rm : RMState) (signal_data : SignalData)
    (risk_params : RiskParameters) : SignalValidation :=
  let validation : SignalValidation :=
    { is_valid := true
      validation_errors := []
      risk_check_passed := true
      position_size_check_passed := true
      correlation_check_passed := true
      market_hours_check_passed := true
      liquidity_check_passed := true }
  let position_size := signal_data.position_size_percent.getD 0
  let validation :=
    if position_size > risk_params.max_position_size then
      { validation with
        position_size_check_passed := false
        is_valid := false
        validation_errors :=
          validation.validation_errors ++ ["Position size exceeds maximum"]
        adjusted_position_size := some risk_params.max_position_size }
    else validation
  let entry_price := signal_data.entry_price.getD 0
  let stop_loss := signal_data.stop_loss.getD 0
  let validation :=
    if entry_price ≠ 0 ∧ stop_loss ≠ 0 then
      if |entry_price - stop_loss| / entry_price >
          risk_params.max_risk_per_trade then
        { validation with
          risk_check_passed := false
          is_valid := false
          validation_errors :=
            validation.validation_errors ++ ["Risk per trade exceeds maximum"] }
      else validation
    else validation
  let validation :=
    if rm.daily_trades_count ≥ risk_params.max_daily_trades then
      { validation with
        is_valid := false
        validation_errors :=
          validation.validation_errors ++ ["Daily trade limit reached"] }
    else validation
  let validation :=
    if (rm.open_positions : ℤ) ≥ risk_params.max_open_positions then
      { validation with
        is_valid := false
        validation_errors :=
          validation.validation_errors ++ ["Maximum open positions reached"] }
    else validation
  let validation :=
    if validation.is_valid then
      apply_risk_adjustments validation signal_data risk_params
    else validation
  { validation with
    recommendations := generate_recommendations validation signal_data }

/-- The deduplication state of an `IAEngine` instance: `self.signal_cache`,
a map from cache key to the `datetime.now()` of the last publication,
modelled as an association list with timestamps in seconds (`ℚ`).
`self.cache_ttl` is 300 seconds. -/
structure EngineState where
  signal_cache : List (String × ℚ) := []

/-- The cache key of `IAEngine._process_signal` (line 296):
`f"{ticker}:{exchange}:{signal_data['signal_type']}"`.  Note it uses the
raw signal-type string (`BUY`, `STRONG_BUY`, `SELL`, `STRONG_SELL`), not a
direction; Python renders a `None` exchange as the string `"None"`. -/
def cache_key (ticker : String) (exchange : Option String)
    (k : SignalKind) : String :=
  ticker ++ ":" ++ exchange.getD "None" ++ ":" ++ k.str

/-- Dictionary lookup in the cache. -/
def lookup_cache (cache : List (String × ℚ)) (key : String) : Option ℚ :=
  (cache.find? (fun e => e.1 == key)).map (fun e => e.2)

/-- Embedding of `IAEngine._is_signal_cached` (lines 364-370): the key is a
hit when its recorded timestamp is strictly less than `cache_ttl = 300`
seconds old. -/
def is_signal_cached (cache : List (String × ℚ)) (key : String) (now : ℚ) :
    Bool :=
  match lookup_cache cache key with
  | some cached_time => now - cached_time < 300
  | none => false

/-- Embedding of `IAEngine._cache_signal` (lines 372-383): record `now`
under the key (overwriting any previous entry), then purge every entry
strictly older than `cache_ttl = 300` seconds. -/
def cache_signal (cache : List (String × ℚ)) (key : String) (now : ℚ) :
    List (String × ℚ) :=
  let updated := cache.filter (fun e => e.1 != key) ++ [(key, now)]
  updated.filter (fun e => now - e.2 ≤ 300)

/-- Outcome of running a sequence of Python statements: a normal value or a
raised exception. -/
inductive PyResult (α : Type) where
  | ok (a : α)
  | exn (msg : String)
deriving DecidableEq, Repr

/-- Line 313 of `ia_engine.py` evaluates `validated_signal["is_valid"]`.
`validate_signal` returns the pydantic model `SignalValidation`, which does
not implement `__getitem__`, so the subscript unconditionally raises
`TypeError` whatever the validation outcome. -/
def subscript_is_valid (_validated_signal : SignalValidation) :
    PyResult (EngineState × Bool) :=
  .exn "TypeError: SignalValidation object is not subscriptable"

/-- The `try` body of `IAEngine._process_signal` (lines 294-359): a cache
hit returns early without publishing; otherwise the candidate is validated
with `RiskParameters()` defaults, after which line 313 subscripts the
pydantic result and raises (see `subscript_is_valid`), so the
save/publish/cache tail of the body (lines 323-359) is unreachable. -/
def process_signal_body (st : EngineState) (rm : RMState)
    (signal_data : SignalData) (ticker : String) (exchange : Option String)
    (now : ℚ) : PyResult (EngineState × Bool) :=
  let key := cache_key ticker exchange signal_data.signal_type
  if is_signal_cached st.signal_cache key now then .ok (st, false)
  else
    let validated_signal := validate_signal rm signal_data defaultRiskParameters
    subscript_is_valid validated_signal

/-- Embedding of `IAEngine._process_signal` (lines 287-362) at time `now`.
The result's boolean records whether a publication happened.  The method's
blanket `except Exception` (line 361) only logs, so a raised body returns
with no publication and the engine state unchanged. -/
def process_signal (st : EngineState) (rm : RMState)
    (signal_data : SignalData) (ticker : String) (exchange : Option String)
    (now : ℚ) : EngineState × Bool :=
  match process_signal_body st rm signal_data ticker exchange now with
  | .ok r => r
  | .exn _ => (st, false)

/-! ## Analytic facts about the hyperbolic tangent

Mathlib 4.14 provides `Real.tanh` but almost no estimates for it, so the
range, monotonicity and threshold bounds used by the scoring claims are
derived here from `Real.exp` facts. -/

/-- `tanh x = 1 - 2 / (exp (2 x) + 1)`. -/
lemma tanh_as_exp (x : ℝ) : Real.tanh x = 1 - 2 / (Real.exp (2 * x) + 1) := by
  have hx : (0 : ℝ) < Real.exp x := Real.exp_pos x
  have h2 : Real.exp (2 * x) = Real.exp x * Real.exp x := by
    rw [two_mul, Real.exp_add]
  rw [Real.tanh_eq_sinh_div_cosh, Real.sinh_eq, Real.cosh_eq, Real.exp_neg, h2]
  have hden : (0 : ℝ) < Real.exp x + (Real.exp x)⁻¹ := by positivity
  field_simp
  ring

/-- `tanh` is bounded above by 1. -/
lemma tanh_lt_one (x : ℝ) : Real.tanh x < 1 := by
  rw [tanh_as_exp]
  have hden : (0 : ℝ) < Real.exp (2 * x) + 1 := by positivity
  have h : (0 : ℝ) < 2 / (Real.exp (2 * x) + 1) := by positivity
  linarith

/-- `tanh` is bounded below by -1. -/
lemma neg_one_lt_tanh (x : ℝ) : -1 < Real.tanh x := by
  rw [tanh_as_exp]
  have hp : (0 : ℝ) < Real.exp (2 * x) := Real.exp_pos _
  have hden : (0 : ℝ) < Real.exp (2 * x) + 1 := by linarith
  have h : 2 / (Real.exp (2 * x) + 1) < 2 := by
    rw [div_lt_iff₀ hden]; nlinarith
  linarith

/-- `tanh` is strictly monotone. -/
lemma tanh_strict_mono {a b : ℝ} (h : a < b) : Real.tanh a < Real.tanh b := by
  rw [tanh_as_exp, tanh_as_exp]
  have hexp : Real.exp (2 * a) < Real.exp (2 * b) :=
    Real.exp_lt_exp.mpr (by linarith)
  have ha : (0 : ℝ) < Real.exp (2 * a) + 1 := by positivity
  have h2 : 2 / (Real.exp (2 * b) + 1) < 2 / (Real.exp (2 * a) + 1) :=
    div_lt_div_of_pos_left (by norm_num) ha (by linarith)
  linarith

/-- `exp (7/40) < 40/33`, from `1 + y < exp y` at `y = -(7/40)`. -/
lemma exp_740_lt : Real.exp (7/40) < 40/33 := by
  have h := Real.add_one_lt_exp (x := -(7/40)) (by norm_num)
  rw [Real.exp_neg] at h
  have hp : (0 : ℝ) < Real.exp (7/40) := Real.exp_pos _
  have h33 : (33/40 : ℝ) < (Real.exp (7/40))⁻¹ := by linarith
  have hm := mul_lt_mul_of_pos_left h33 hp
  rw [mul_inv_cancel₀ (ne_of_gt hp)] at hm
  linarith

/-- `exp (7/5) < 33/7`, by taking the eighth power of `exp_740_lt`. -/
lemma exp_75_lt : Real.exp (7/5) < 33/7 := by
  have h8 : Real.exp (7/5) = Real.exp (7/40) ^ (8 : ℕ) := by
    rw [show (7/5 : ℝ) = (8 : ℕ) * (7/40) by norm_num, Real.exp_nat_mul]
  rw [h8]
  calc Real.exp (7/40) ^ (8 : ℕ)
      < (40/33 : ℝ) ^ (8 : ℕ) :=
        pow_lt_pow_left₀ exp_740_lt (le_of_lt (Real.exp_pos _)) (by norm_num)
    _ < 33/7 := by norm_num

/-- The saturation value of the default scoring: `tanh (7/10) < 0.65`. -/
lemma tanh_710_lt : Real.tanh (7/10) < 13/20 := by
  rw [tanh_as_exp]
  have hE : Real.exp (2 * (7/10)) < 33/7 := by
    rw [show (2 * (7/10) : ℝ) = 7/5 by norm_num]; exact exp_75_lt
  have hp : (0 : ℝ) < Real.exp (2 * (7/10)) := Real.exp_pos _
  have hden : (0 : ℝ) < Real.exp (2 * (7/10)) + 1 := by linarith
  have h : (7/20 : ℝ) < 2 / (Real.exp (2 * (7/10)) + 1) := by
    rw [lt_div_iff₀ hden]; nlinarith
  linarith

/-- Any score at most `0.7` has `tanh` below the buy threshold `0.65`. -/
lemma tanh_lt_buy {x : ℝ} (h : x ≤ 7/10) : Real.tanh x < 13/20 := by
  rcases lt_or_eq_of_le h with h1 | h1
  · exact lt_trans (tanh_strict_mono h1) tanh_710_lt
  · rw [h1]; exact tanh_710_lt

/-- Any score at least `-0.7` has `tanh` above the sell threshold `-0.65`. -/
lemma neg_sell_lt_tanh {x : ℝ} (h : -(7/10) ≤ x) : -(13/20) < Real.tanh x := by
  have h2 : -x ≤ 7/10 := by linarith
  have h3 := tanh_lt_buy h2
  rw [Real.tanh_neg] at h3
  linarith

/-! ## Range of the raw score -/

/-- The trend term takes only the values `0.3`, `0` and `-0.3`. -/
lemma trendTerm_cases (m : FeatMatrix) :
    trendTerm m = 3/10 ∨ trendTerm m = 0 ∨ trendTerm m = -(3/10) := by
  unfold trendTerm; split_ifs <;> simp

/-- The RSI term takes only the values `0.4`, `0` and `-0.4`. -/
lemma rsiTerm_cases (m : FeatMatrix) :
    rsiTerm m = 4/10 ∨ rsiTerm m = 0 ∨ rsiTerm m = -(4/10) := by
  unfold rsiTerm; split_ifs <;> simp

/-- The raw score is always within `[-0.7, 0.7]`. -/
lemma abs_rawScore_le (m : FeatMatrix) (ctx : Option MarketCtx) :
    |rawScore m ctx| ≤ 7/10 := by
  unfold rawScore
  rcases trendTerm_cases m with h1 | h1 | h1 <;>
    rcases rsiTerm_cases m with h2 | h2 | h2 <;>
      rw [h1, h2] <;> split_ifs <;> rw [abs_le] <;> constructor <;> norm_num

/-- The raw score, cast to the reals, is within `[-0.7, 0.7]`. -/
lemma abs_rawScore_cast_le (m : FeatMatrix) (ctx : Option MarketCtx) :
    |((rawScore m ctx : ℚ) : ℝ)| ≤ 7/10 := by
  have h := abs_rawScore_le m ctx
  rw [← Rat.cast_abs]
  have h7 : ((7/10 : ℚ) : ℝ) = 7/10 := by norm_num
  rw [← h7]
  exact Rat.cast_le.mpr h

/-! ## Behaviour of the default prediction pipeline -/

/-- On every input, the prediction confidence stays strictly below the buy
threshold `0.65`. -/
lemma run_prediction_confidence_lt (m : FeatMatrix) (tf : String)
    (ctx : Option MarketCtx) :
    (run_prediction m tf ctx).confidence < 13/20 := by
  unfold run_prediction
  split_ifs with h
  · norm_num
  · show |Real.tanh ((rawScore m ctx : ℚ) : ℝ)| < 13/20
    have hq := abs_rawScore_cast_le m ctx
    rw [abs_le] at hq
    have h1 := tanh_lt_buy hq.2
    have h2 := neg_sell_lt_tanh hq.1
    rw [abs_lt]
    exact ⟨by linarith, h1⟩

/-- On every input, the prediction score stays strictly inside
`(-0.65, 0.65)`. -/
lemma run_prediction_score_small (m : FeatMatrix) (tf : String)
    (ctx : Option MarketCtx) :
    -(13/20) < (run_prediction m tf ctx).score ∧
      (run_prediction m tf ctx).score < 13/20 := by
  unfold run_prediction
  split_ifs with h
  · constructor <;> norm_num
  · show -(13/20) < Real.tanh ((rawScore m ctx : ℚ) : ℝ) ∧
      Real.tanh ((rawScore m ctx : ℚ) : ℝ) < 13/20
    have hq := abs_rawScore_cast_le m ctx
    rw [abs_le] at hq
    exact ⟨neg_sell_lt_tanh hq.1, tanh_lt_buy hq.2⟩

/-- On every input, the default classification is `HOLD`. -/
lemma run_prediction_hold (m : FeatMatrix) (tf : String)
    (ctx : Option MarketCtx) :
    (run_prediction m tf ctx).signal_type = .HOLD := by
  have hs := run_prediction_score_small m tf ctx
  unfold run_prediction at hs ⊢
  split_ifs at hs ⊢ with h
  · rfl
  · show (if Real.tanh ((rawScore m ctx : ℚ) : ℝ) > strongBuyThreshold then
        SignalKind.STRONG_BUY
      else if Real.tanh ((rawScore m ctx : ℚ) : ℝ) > buyThreshold then .BUY
      else if Real.tanh ((rawScore m ctx : ℚ) : ℝ) < strongSellThreshold then
        .STRONG_SELL
      else if Real.tanh ((rawScore m ctx : ℚ) : ℝ) < sellThreshold then .SELL
      else .HOLD) = .HOLD
    have h1 : -(13/20) < Real.tanh ((rawScore m ctx : ℚ) : ℝ) := hs.1
    have h2 : Real.tanh ((rawScore m ctx : ℚ) : ℝ) < 13/20 := hs.2
    rw [if_neg, if_neg, if_neg, if_neg]
    · unfold sellThreshold; push_neg; linarith
    · unfold strongSellThreshold; push_neg; linarith
    · unfold buyThreshold; push_neg; linarith
    · unfold strongBuyThreshold; push_neg; linarith

/-- On every input, confidence equals the absolute value of the score. -/
lemma run_prediction_conf_abs (m : FeatMatrix) (tf : String)
    (ctx : Option MarketCtx) :
    (run_prediction m tf ctx).confidence = |(run_prediction m tf ctx).score| := by
  unfold run_prediction
  split_ifs with h
  · show (0:ℝ) = |(0:ℝ)|
    simp
  · rfl

/-- On every input, the score lies in `[-1, 1]`. -/
lemma run_prediction_score_range (m : FeatMatrix) (tf : String)
    (ctx : Option MarketCtx) :
    -1 ≤ (run_prediction m tf ctx).score ∧ (run_prediction m tf ctx).score ≤ 1 := by
  unfold run_prediction
  split_ifs with h
  · constructor <;> norm_num
  · exact ⟨le_of_lt (neg_one_lt_tanh _), le_of_lt (tanh_lt_one _)⟩

/-- The per-timeframe collection step never retains a signal: every
prediction's confidence is below the `0.70` floor. -/
lemma collect_signals_nil (normalize : Df → FeatMatrix)
    (ctx : Option MarketCtx) :
    ∀ tsData : List (String × Option Df),
      collect_signals normalize ctx tsData = [] := by
  intro tsData
  induction tsData with
  | nil => rfl
  | cons hd rest ih =>
    obtain ⟨tf, data⟩ := hd
    cases data with
    | none => simpa [collect_signals] using ih
    | some df =>
      by_cases hlen : df.numRows < 50
      · simp only [collect_signals, if_pos hlen]
        exact ih
      · have hc := run_prediction_confidence_lt (normalize df) tf ctx
        have hlt : ¬((run_prediction (normalize df) tf ctx).confidence ≥
            confidenceThreshold) := by
          unfold confidenceThreshold
          push_neg
          linarith
        simp only [collect_signals, if_neg hlen, if_neg hlt]
        exact ih

/-- `predict_signals` returns the empty list on every input. -/
lemma predict_signals_nil (normalize : Df → FeatMatrix)
    (timeseries_data : List (String × Option Df)) (ctx : Option MarketCtx) :
    predict_signals normalize timeseries_data ctx = [] := by
  unfold predict_signals
  rw [collect_signals_nil]
  rfl

/-! ## Characterization of Python `max` -/

/-- The element Python `max` returns is in the list. -/
lemma pyMax_mem (key : α → ℝ) (x : α) (xs : List α) :
    pyMax key x xs ∈ x :: xs := by
  induction xs generalizing x with
  | nil => simp [pyMax]
  | cons a t ih =>
    simp only [pyMax, List.foldl_cons]
    have h2 := ih (if key x < key a then a else x)
    simp only [pyMax] at h2
    rcases List.mem_cons.mp h2 with h3 | h3
    · rw [h3]
      split_ifs <;> simp
    · simp [h3]

/-- Every listed element's key is bounded by the key of Python `max`. -/
lemma key_le_pyMax (key : α → ℝ) (x : α) (xs : List α) :
    ∀ y ∈ x :: xs, key y ≤ key (pyMax key x xs) := by
  induction xs generalizing x with
  | nil =>
    intro y hy
    rw [List.mem_singleton] at hy
    rw [hy]
    simp [pyMax]
  | cons a t ih =>
    intro y hy
    simp only [pyMax, List.foldl_cons]
    have hstep : key x ≤ key (if key x < key a then a else x) ∧
        key a ≤ key (if key x < key a then a else x) := by
      split_ifs with h
      · exact ⟨le_of_lt h, le_refl _⟩
      · push_neg at h
        exact ⟨le_refl _, h⟩
    have hself := ih (if key x < key a then a else x)
        (if key x < key a then a else x) (by simp)
    simp only [pyMax] at hself
    rcases List.mem_cons.mp hy with h1 | h1
    · rw [h1]
      exact le_trans hstep.1 hself
    rcases List.mem_cons.mp h1 with h2 | h2
    · rw [h2]
      exact le_trans hstep.2 hself
    · have h4 := ih (if key x < key a then a else x) y
        (List.mem_cons_of_mem _ h2)
      simp only [pyMax] at h4
      exact h4

/-- Python `max` returns the FIRST maximal element: everything listed
before it has a strictly smaller key (on a tie the earlier element wins). -/
lemma pyMax_first (key : α → ℝ) (x : α) (xs : List α) :
    ∃ l r, x :: xs = l ++ pyMax key x xs :: r ∧
      ∀ y ∈ l, key y < key (pyMax key x xs) := by
  induction xs generalizing x with
  | nil => exact ⟨[], [], rfl, by simp⟩
  | cons a t ih =>
    simp only [pyMax, List.foldl_cons]
    by_cases h : key x < key a
    · rw [if_pos h]
      obtain ⟨l, r, hl, hlt⟩ := ih a
      simp only [pyMax] at hl hlt
      refine ⟨x :: l, r, ?_, ?_⟩
      · rw [List.cons_append, ← hl]
      · intro y hy
        rcases List.mem_cons.mp hy with h1 | h1
        · have hax := key_le_pyMax key a t a (by simp)
          simp only [pyMax] at hax
          rw [h1]
          exact lt_of_lt_of_le h hax
        · exact hlt y h1
    · rw [if_neg h]
      push_neg at h
      obtain ⟨l, r, hl, hlt⟩ := ih x
      simp only [pyMax] at hl hlt
      cases l with
      | nil =>
        simp only [List.nil_append] at hl
        injection hl with hx1 hx2
        refine ⟨[], a :: r, ?_, by simp⟩
        rw [List.nil_append, ← hx1, ← hx2]
      | cons b t1 =>
        rw [List.cons_append] at hl
        injection hl with hb ht
        refine ⟨x :: a :: t1, r, ?_, ?_⟩
        · rw [List.cons_append, List.cons_append, ← ht]
        · intro y hy
          have hxm : key x <
              key (List.foldl (fun b a => if key b < key a then a else b) x t) := by
            have := hlt b (by simp)
            rw [← hb] at this
            exact this
          rcases List.mem_cons.mp hy with h1 | h1
          · rw [h1]; exact hxm
          rcases List.mem_cons.mp h1 with h2 | h2
          · rw [h2]; exact lt_of_le_of_lt h hxm
          · exact hlt y (List.mem_cons_of_mem _ h2)

/-! ## Spec-side definitions and concrete scenario inputs -/

/-- Modelled from the spec: the claimed raw-score trend term, "a
short-horizon trend term ... contributing up to ±0.4" (§4.2).  It shares
the source's activation condition on the 20-bar mean close change; only the
claimed magnitude (±0.4 instead of the source's ±0.3) differs, which is the
part of the sentence under test. -/
def specTrendTerm (m : FeatMatrix) : ℚ :=
  if recent_trend m > 1/1000 then 4/10
  else if recent_trend m < -(1/1000) then -(4/10)
  else 0

/-- Modelled from the spec: the claimed raw score — spec trend term plus
RSI term, attenuated by 0.7 above VIX 30. -/
def specRawScore (m : FeatMatrix) (ctx : Option MarketCtx) : ℚ :=
  let s := specTrendTerm m + rsiTerm m
  if vixHigh ctx then s * (7/10) else s

/-- A normalized feature row with close change `+0.002` (column 3) and a
neutral RSI feature `0.5` (RSI 50, column 5). -/
def rowNeutral : List ℚ := [0, 0, 0, 1/500, 0, 1/2]

/-- A normalized feature row with close change `+0.002` and RSI feature
`0.25` (RSI 25). -/
def rowOversold : List ℚ := [0, 0, 0, 1/500, 0, 1/4]

/-- 20 bars of `+0.002` close change at neutral RSI. -/
def mNeutral : FeatMatrix where
  rows := List.replicate 19 rowNeutral ++ [rowNeutral]
  ncols := 6
  rect := by
    intro r hr
    rcases List.mem_append.mp hr with h | h
    · rw [List.eq_of_mem_replicate h]
      rfl
    · rw [List.mem_singleton.mp h]
      rfl

/-- The C1 scenario window: 20 bars whose close changes average `+0.002`,
ending on an RSI-25 bar. -/
def mOversold : FeatMatrix where
  rows := List.replicate 19 rowNeutral ++ [rowOversold]
  ncols := 6
  rect := by
    intro r hr
    rcases List.mem_append.mp hr with h | h
    · rw [List.eq_of_mem_replicate h]
      rfl
    · rw [List.mem_singleton.mp h]
      rfl

/-- Market context with `vix_level = 18`. -/
def ctx18 : Option MarketCtx := some { vix_level := some 18 }

/-- The empty feature matrix (zero observations): `features[-1]` raises. -/
def mEmpty : FeatMatrix where
  rows := []
  ncols := 6
  rect := by intro r hr; cases hr

/-- A DataFrame resolution for the AAPL scenario: 60 bars, last close
151.2, ATR 2.5. -/
def dfAAPL : Df := { numRows := 60, lastClose := 756/5, atr := 5/2 }

/-- A DataFrame resolution whose resolved ATR is zero. -/
def dfZeroAtr : Df := { numRows := 60, lastClose := 100, atr := 0 }

/-- A `BUY` prediction at confidence 0.66 used to drive `_create_signal`
directly. -/
noncomputable def predBuy : Prediction :=
  { score := 33/50, confidence := 33/50, signal_type := .BUY, timeframe := "1h" }

/-! ## Evaluation of the concrete scenarios -/

/-- The neutral window's 20-bar mean close change is `+0.002`. -/
lemma recent_trend_mNeutral : recent_trend mNeutral = 1/500 := by
  norm_num [recent_trend, mNeutral, lastN, npMean, rowNeutral]

/-- The neutral window's RSI reads back as 50. -/
lemma rsi_read_mNeutral : rsi_read mNeutral = 50 := by
  norm_num [rsi_read, mNeutral, rowNeutral, List.getLast?_concat]

/-- On the neutral window the source's raw score is `0.3`: the trend term
alone. -/
lemma rawScore_mNeutral : rawScore mNeutral none = 3/10 := by
  norm_num [rawScore, trendTerm, rsiTerm, vixHigh, recent_trend_mNeutral,
    rsi_read_mNeutral]

/-- On the neutral window the spec-claimed raw score would be `0.4`. -/
lemma specRawScore_mNeutral : specRawScore mNeutral none = 2/5 := by
  norm_num [specRawScore, specTrendTerm, rsiTerm, vixHigh, recent_trend_mNeutral,
    rsi_read_mNeutral]

/-- The oversold window's 20-bar mean close change is `+0.002`. -/
lemma recent_trend_mOversold : recent_trend mOversold = 1/500 := by
  norm_num [recent_trend, mOversold, lastN, npMean, rowNeutral, rowOversold]

/-- The oversold window's RSI reads back as 25. -/
lemma rsi_read_mOversold : rsi_read mOversold = 25 := by
  norm_num [rsi_read, mOversold, rowNeutral, rowOversold, List.getLast?_concat]

/-- On the oversold window with VIX 18 the raw score saturates at `0.7` —
trend `+0.3` plus RSI `+0.4`, no attenuation. -/
lemma rawScore_mOversold : rawScore mOversold ctx18 = 7/10 := by
  norm_num [rawScore, trendTerm, rsiTerm, vixHigh, ctx18, MarketCtx.vix,
    recent_trend_mOversold, rsi_read_mOversold]

/-- Outside the raising branch, the prediction score is the compressed raw
score. -/
lemma run_prediction_score_eq (m : FeatMatrix) (tf : String)
    (ctx : Option MarketCtx) (h : ¬(m.rows = [] ∨ m.ncols < 4)) :
    (run_prediction m tf ctx).score = Real.tanh ((rawScore m ctx : ℚ) : ℝ) := by
  unfold run_prediction
  rw [if_neg h]

/-- `tanh` is monotone. -/
lemma tanh_mono_le {a b : ℝ} (h : a ≤ b) : Real.tanh a ≤ Real.tanh b := by
  rcases lt_or_eq_of_le h with h1 | h1
  · exact le_of_lt (tanh_strict_mono h1)
  · rw [h1]

/-- The prediction confidence never exceeds the saturation value
`tanh 0.7` of the default scoring. -/
lemma run_prediction_confidence_le_sat (m : FeatMatrix) (tf : String)
    (ctx : Option MarketCtx) :
    (run_prediction m tf ctx).confidence ≤ Real.tanh (7/10) := by
  have h0 : (0 : ℝ) ≤ Real.tanh (7/10) := by
    have h := tanh_mono_le (show (0 : ℝ) ≤ 7/10 by norm_num)
    rwa [Real.tanh_zero] at h
  unfold run_prediction
  split_ifs with h
  · exact h0
  · show |Real.tanh ((rawScore m ctx : ℚ) : ℝ)| ≤ Real.tanh (7/10)
    have hq := abs_rawScore_cast_le m ctx
    rw [abs_le] at hq
    rw [abs_le]
    constructor
    · have h2 := tanh_mono_le hq.1
      rwa [Real.tanh_neg] at h2
    · exact tanh_mono_le hq.2

/-- A candidate dictionary that passes every hard check of the risk
manager and carries a non-zero ATR (entry 100, stop 99.5, position 1%,
ATR 2.5). -/
def sdValidBuy : SignalData :=
  { signal_type := .BUY
    position_size_percent := some (1/100)
    entry_price := some 100
    stop_loss := some (199/2)
    technical_indicators := some { atr := some (5/2) }
    risk_reward_ratio := some 2 }

/-- A candidate dictionary carrying the spec's oversized 8% position. -/
def sdOversized : SignalData :=
  { signal_type := .BUY
    position_size_percent := some (2/25) }

/-- The candidate `_create_signal` builds from `predBuy` over `dfAAPL`:
entry 151.2, stop `151.2 - 2·2.5 = 146.2`, target `151.2 + 3·2.5 = 158.7`,
risk/reward `7.5 / 5 = 1.5`. -/
noncomputable def sigAAPL : CandidateSignal :=
  { signal_type := .BUY, confidence := 33/50, score := 33/50,
    entry_price := 756/5, stop_loss := 731/5, take_profit := 1587/10,
    risk_reward_ratio := 3/2, timeframe := "1h" }

/-- A bullish candidate at confidence 0.8 on the 1h timeframe. -/
noncomputable def cTie1h : CandidateSignal :=
  { signal_type := .BUY, confidence := 4/5, score := 4/5, entry_price := 100,
    stop_loss := 95, take_profit := 110, risk_reward_ratio := 2,
    timeframe := "1h" }

/-- A bullish candidate at confidence 0.8 on the 15m timeframe. -/
noncomputable def cTie15m : CandidateSignal :=
  { signal_type := .BUY, confidence := 4/5, score := 4/5, entry_price := 100,
    stop_loss := 95, take_profit := 110, risk_reward_ratio := 2,
    timeframe := "15m" }

/-- A bullish candidate at confidence 0.72 on the 1h timeframe. -/
noncomputable def cBuy72 : CandidateSignal :=
  { signal_type := .BUY, confidence := 18/25, score := 18/25,
    entry_price := 100, stop_loss := 95, take_profit := 110,
    risk_reward_ratio := 2, timeframe := "1h" }

/-- A bullish candidate at confidence 0.88 on the 15m timeframe. -/
noncomputable def cBuy88 : CandidateSignal :=
  { signal_type := .BUY, confidence := 22/25, score := 22/25,
    entry_price := 100, stop_loss := 95, take_profit := 110,
    risk_reward_ratio := 2, timeframe := "15m" }

/-- A bullish candidate at confidence 0.65 on the 5m timeframe. -/
noncomputable def cBuy65 : CandidateSignal :=
  { signal_type := .BUY, confidence := 13/20, score := 13/20,
    entry_price := 100, stop_loss := 95, take_profit := 110,
    risk_reward_ratio := 2, timeframe := "5m" }

/-- The one-direction selection performed by `_aggregate_signals`: nothing
from an empty sublist, else Python `max` by key. -/
noncomputable def selectBest (key : α → ℝ) : List α → List α
  | [] => []
  | x :: xs => [pyMax key x xs]

/-- `_aggregate_signals` is the concatenation of the per-direction
selections (the `if not signals` early return coincides with both
selections being empty). -/
lemma aggregate_signals_eq (signals : List CandidateSignal) :
    aggregate_signals signals =
      selectBest (fun s => s.confidence)
        (signals.filter (fun s => isBuyKind s.signal_type)) ++
      selectBest (fun s => s.confidence)
        (signals.filter (fun s => isSellKind s.signal_type)) := by
  by_cases hE : signals.isEmpty
  · rw [List.isEmpty_iff] at hE
    subst hE
    rfl
  · have hE2 : signals.isEmpty = false := by
      rwa [Bool.not_eq_true] at hE
    unfold aggregate_signals
    rw [hE2]
    simp only [Bool.false_eq_true, if_false]
    cases hb : signals.filter (fun s => isBuyKind s.signal_type) <;>
      cases hs : signals.filter (fun s => isSellKind s.signal_type) <;>
        simp [selectBest]

/-- Each per-direction selection keeps at most one candidate. -/
lemma selectBest_len (key : α → ℝ) (l : List α) :
    (selectBest key l).length ≤ 1 := by
  cases l <;> simp [selectBest]

/-- A per-direction selection is empty exactly on an empty sublist. -/
lemma selectBest_nil_iff (key : α → ℝ) (l : List α) :
    selectBest key l = [] ↔ l = [] := by
  cases l <;> simp [selectBest]

/-- The selected candidate is a listed element of maximal key, and every
element listed before it has a strictly smaller key. -/
lemma selectBest_mem_spec (key : α → ℝ) (l : List α) :
    ∀ m ∈ selectBest key l, ∃ l1 r, l = l1 ++ m :: r ∧
      (∀ y ∈ l, key y ≤ key m) ∧ ∀ y ∈ l1, key y < key m := by
  cases l with
  | nil => intro m hm; cases hm
  | cons x xs =>
    intro m hm
    simp only [selectBest, List.mem_singleton] at hm
    subst hm
    obtain ⟨l1, r, hl, hlt⟩ := pyMax_first key x xs
    refine ⟨l1, r, hl, ?_, hlt⟩
    exact key_le_pyMax key x xs

/-! ## Claims -/

/-- **C1.** On the claim's own scenario — a window whose last RSI feature
corresponds to RSI 25 (`0.25`), whose last-20 mean close change is `+0.002`,
under a VIX-18 context — the pipeline produces NO signal: the raw score
saturates at `0.3 + 0.4 = 0.7`, the compressed score `tanh 0.7 ≈ 0.604` is
below the `0.65` buy threshold (so the classification is `HOLD`) and below
the `0.70` confidence floor (so `predict_signals` filters it out and
returns the empty list), contradicting the claimed single BUY signal with
confidence at least `0.70`. -/
theorem c1_scenario_produces_no_signal :
    recent_trend mOversold = 1/500 ∧
    rsi_read mOversold = 25 ∧
    rawScore mOversold ctx18 = 7/10 ∧
    (run_prediction mOversold "1h" ctx18).signal_type = .HOLD ∧
    (run_prediction mOversold "1h" ctx18).confidence < confidenceThreshold ∧
    predict_signals (fun _ => mOversold) [("1h", some dfAAPL)] ctx18 = [] := by
  refine ⟨recent_trend_mOversold, rsi_read_mOversold, rawScore_mOversold,
    run_prediction_hold mOversold "1h" ctx18, ?_, predict_signals_nil _ _ _⟩
  have h := run_prediction_confidence_lt mOversold "1h" ctx18
  unfold confidenceThreshold
  linarith

/-- **C2 (counterexample).** On a window with 20-bar mean close change
`+0.002` and neutral RSI 50, the source's trend contribution is `0.3`, not
the claimed `0.4`: the code's score is `tanh 0.3` while the claimed scoring
(`specRawScore`, modelled from the spec sentence) gives `tanh 0.4`, and the
two differ. -/
theorem c2_trend_term_counterexample :
    recent_trend mNeutral = 1/500 ∧
    rsi_read mNeutral = 50 ∧
    rawScore mNeutral none = 3/10 ∧
    specRawScore mNeutral none = 2/5 ∧
    (run_prediction mNeutral "1h" none).score ≠
      Real.tanh ((specRawScore mNeutral none : ℚ) : ℝ) := by
  have hcond : ¬(mNeutral.rows = [] ∨ mNeutral.ncols < 4) := by
    push_neg
    constructor
    · simp [mNeutral]
    · norm_num [mNeutral]
  refine ⟨recent_trend_mNeutral, rsi_read_mNeutral, rawScore_mNeutral,
    specRawScore_mNeutral, ?_⟩
  rw [run_prediction_score_eq mNeutral "1h" none hcond, rawScore_mNeutral,
    specRawScore_mNeutral]
  have hlt : Real.tanh (((3/10 : ℚ) : ℚ) : ℝ) < Real.tanh (((2/5 : ℚ) : ℚ) : ℝ) := by
    apply tanh_strict_mono
    norm_num
  exact ne_of_lt hlt

/-- **C2 (amended).** Outside the raising branch, `_run_prediction`
computes its score as `tanh` of a raw score that decomposes into a trend
term of magnitude at most `0.3` (values `±0.3` or `0`) plus an RSI
mean-reversion term of magnitude at most `0.4`, the sum attenuated by `0.7`
exactly when the supplied `vix_level` exceeds 30, and the resulting score
lies in `[-1, 1]`. -/
theorem c2_amended_scoring_structure (m : FeatMatrix) (tf : String)
    (ctx : Option MarketCtx) (hrows : m.rows ≠ []) (hcols : 4 ≤ m.ncols) :
    (run_prediction m tf ctx).score = Real.tanh ((rawScore m ctx : ℚ) : ℝ) ∧
    rawScore m ctx = (if vixHigh ctx then (trendTerm m + rsiTerm m) * (7/10)
      else trendTerm m + rsiTerm m) ∧
    |trendTerm m| ≤ 3/10 ∧
    |rsiTerm m| ≤ 2/5 ∧
    -1 ≤ (run_prediction m tf ctx).score ∧
    (run_prediction m tf ctx).score ≤ 1 := by
  have hcond : ¬(m.rows = [] ∨ m.ncols < 4) := by
    push_neg
    exact ⟨hrows, not_lt.mp (by omega)⟩
  refine ⟨run_prediction_score_eq m tf ctx hcond, rfl, ?_, ?_,
    (run_prediction_score_range m tf ctx).1,
    (run_prediction_score_range m tf ctx).2⟩
  · rcases trendTerm_cases m with h | h | h <;> rw [h]
    · rw [abs_of_pos]
      all_goals norm_num
    · norm_num
    · rw [abs_neg, abs_of_pos]
      all_goals norm_num
  · rcases rsiTerm_cases m with h | h | h <;> rw [h]
    · rw [abs_of_pos]
      all_goals norm_num
    · norm_num
    · rw [abs_neg, abs_of_pos]
      all_goals norm_num

/-- **C2 (witness).** The amended scoring structure evaluated on the
neutral concrete window. -/
theorem c2_amended_scoring_structure_witness :
    |trendTerm mNeutral| ≤ 3/10 ∧ |rsiTerm mNeutral| ≤ 2/5 ∧
    (run_prediction mNeutral "1h" none).score =
      Real.tanh ((rawScore mNeutral none : ℚ) : ℝ) := by
  have h := c2_amended_scoring_structure mNeutral "1h" none
    (by simp [mNeutral]) (by norm_num [mNeutral])
  exact ⟨h.2.2.1, h.2.2.2.1, h.1⟩

/-- **C3.** Under the default configuration every prediction's confidence
is at most `tanh 0.7`, which is below the `0.65` buy threshold, itself below
the `0.70` confidence floor; every classification is `HOLD`; and
`predict_signals` returns the empty list on every input (for every
normalizer, timeframe map and market context). -/
theorem c3_default_config_never_signals :
    (∀ (m : FeatMatrix) (tf : String) (ctx : Option MarketCtx),
      (run_prediction m tf ctx).confidence ≤ Real.tanh (7/10)) ∧
    Real.tanh (7/10) < 13/20 ∧
    ((13 : ℝ)/20) < 7/10 ∧
    (∀ (m : FeatMatrix) (tf : String) (ctx : Option MarketCtx),
      (run_prediction m tf ctx).signal_type = .HOLD) ∧
    (∀ (normalize : Df → FeatMatrix) (tsData : List (String × Option Df))
        (ctx : Option MarketCtx),
      predict_signals normalize tsData ctx = []) := by
  refine ⟨run_prediction_confidence_le_sat, tanh_710_lt, by norm_num,
    run_prediction_hold, predict_signals_nil⟩

/-- **C4.** `_process_signal` never publishes and never mutates the
deduplication cache: line 313 subscripts the pydantic `SignalValidation`
(`validated_signal["is_valid"]`), which raises `TypeError` and is swallowed
by the blanket `except`.  In particular two submissions of the same valid
BUY candidate for `("AAPL", None)` 10 seconds apart yield ZERO publications
(not the claimed one), and a resubmission past the 300-second cooldown
(here at t = 400) also yields zero (not the claimed second publication). -/
theorem c4_process_signal_never_publishes :
    (∀ (st : EngineState) (rm : RMState) (sd : SignalData) (ticker : String)
        (exchange : Option String) (now : ℚ),
      process_signal st rm sd ticker exchange now = (st, false)) ∧
    process_signal {} {} sdValidBuy "AAPL" none 0 = ({}, false) ∧
    process_signal {} {} sdValidBuy "AAPL" none 10 = ({}, false) ∧
    process_signal {} {} sdValidBuy "AAPL" none 400 = ({}, false) := by
  have hgen : ∀ (st : EngineState) (rm : RMState) (sd : SignalData)
      (ticker : String) (exchange : Option String) (now : ℚ),
      process_signal st rm sd ticker exchange now = (st, false) := by
    intro st rm sd ticker exchange now
    by_cases h : is_signal_cached st.signal_cache
      (cache_key ticker exchange sd.signal_type) now
    · simp [process_signal, process_signal_body, subscript_is_valid, h]
    · simp [process_signal, process_signal_body, subscript_is_valid, h]
  exact ⟨hgen, hgen _ _ _ _ _ _, hgen _ _ _ _ _ _, hgen _ _ _ _ _ _⟩

/-- **C5.** Any candidate with an 8% position size validated against
parameters capping positions at 2% fails the position-size check, is marked
invalid, and carries the advisory adjusted size 2% — while the validation
verdict stays `false` (the candidate is not re-validated with the adjusted
value inside the same call). -/
theorem c5_position_size_rejection (rm : RMState) (sd : SignalData)
    (rp : RiskParameters) (hpos : sd.position_size_percent = some (2/25))
    (hmax : rp.max_position_size = 1/50) :
    (validate_signal rm sd rp).is_valid = false ∧
    (validate_signal rm sd rp).position_size_check_passed = false ∧
    (validate_signal rm sd rp).adjusted_position_size = some (1/50) := by
  unfold validate_signal
  rw [hpos, hmax]
  simp only [Option.getD_some]
  rw [if_pos (by norm_num : (2 : ℚ)/25 > 1/50)]
  split_ifs <;> simp_all [apply_risk_adjustments]

/-- **C5 (witness).** The rejection evaluated on a concrete 8% candidate
against the default parameters. -/
theorem c5_position_size_rejection_witness :
    (validate_signal {} sdOversized defaultRiskParameters).is_valid = false ∧
    (validate_signal {} sdOversized defaultRiskParameters).position_size_check_passed
      = false ∧
    (validate_signal {} sdOversized defaultRiskParameters).adjusted_position_size
      = some (1/50) :=
  c5_position_size_rejection {} sdOversized defaultRiskParameters rfl rfl

/-- **C6.** A candidate that passes every hard check and carries the
non-zero ATR 2.5 still comes back WITHOUT adjusted stop-loss or
take-profit: `_apply_risk_adjustments` reads
`risk_params.stop_loss_atr_multiplier`, a field `RiskParameters` does not
declare, so the `AttributeError` is swallowed and no adjustment is ever
filled in — contradicting the claimed ATR-multiplier adjustment. -/
theorem c6_atr_adjustment_never_applied :
    (validate_signal {} sdValidBuy defaultRiskParameters).is_valid = true ∧
    (sdValidBuy.technical_indicators.getD {}).atr.getD 0 = 5/2 ∧
    (validate_signal {} sdValidBuy defaultRiskParameters).adjusted_stop_loss
      = none ∧
    (validate_signal {} sdValidBuy defaultRiskParameters).adjusted_take_profit
      = none := by
  have habs : |(1/2 : ℚ)| = 1/2 := by
    rw [abs_of_pos]
    norm_num
  norm_num [validate_signal, sdValidBuy, defaultRiskParameters,
    apply_risk_adjustments, generate_recommendations, habs]

/-- **C7 (counterexample).** With a resolved ATR of zero, `_create_signal`
still returns a bullish candidate, but its stop-loss and take-profit
coincide with the entry price, refuting the claimed strict ordering
`stop-loss < entry < take-profit`. -/
theorem c7_zero_atr_counterexample :
    isBuyKind predBuy.signal_type = true ∧
    (create_signal predBuy dfZeroAtr "1h").map (fun s => s.entry_price)
      = some 100 ∧
    (create_signal predBuy dfZeroAtr "1h").map (fun s => s.stop_loss)
      = some 100 ∧
    (create_signal predBuy dfZeroAtr "1h").map (fun s => s.take_profit)
      = some 100 := by
  have hne : SignalKind.BUY ≠ SignalKind.HOLD := by decide
  refine ⟨rfl, ?_, ?_, ?_⟩ <;>
    norm_num [create_signal, predBuy, dfZeroAtr, isBuyKind, hne]

/-- **C7 (amended).** Provided the resolved ATR is positive, every
candidate returned by `_create_signal` satisfies the claimed geometry: a
bullish candidate has stop-loss `entry − 2·ATR` and take-profit
`entry + 3·ATR` with `stop < entry < target`; a bearish one has the offsets
inverted with `target < entry < stop`. -/
theorem c7_offsets_when_atr_positive (pred : Prediction) (data : Df)
    (tf : String) (s : CandidateSignal) (hatr : 0 < data.atr)
    (hs : create_signal pred data tf = some s) :
    (isBuyKind s.signal_type = true →
      s.stop_loss = s.entry_price - 2 * data.atr ∧
      s.take_profit = s.entry_price + 3 * data.atr ∧
      s.stop_loss < s.entry_price ∧ s.entry_price < s.take_profit) ∧
    (isBuyKind s.signal_type = false →
      s.stop_loss = s.entry_price + 2 * data.atr ∧
      s.take_profit = s.entry_price - 3 * data.atr ∧
      s.take_profit < s.entry_price ∧ s.entry_price < s.stop_loss) := by
  unfold create_signal at hs
  by_cases hh : pred.signal_type = .HOLD
  · rw [if_pos hh] at hs
    cases hs
  · rw [if_neg hh, Option.some.injEq] at hs
    obtain ⟨st, cf, sc, ep, sl, tp, rr, tfr⟩ := s
    rw [CandidateSignal.mk.injEq] at hs
    obtain ⟨h1, h2, h3, h4, h5, h6, h7, h8⟩ := hs
    dsimp only at h1 h4 h5 h6 ⊢
    subst h1 h4 h5 h6
    by_cases hb : isBuyKind pred.signal_type
    · rw [if_pos hb, if_pos hb]
      constructor
      · intro _
        refine ⟨by trivial, by trivial, by linarith, by linarith⟩
      · intro hcontra
        rw [hb] at hcontra
        cases hcontra
    · rw [Bool.not_eq_true] at hb
      rw [hb] at *
      simp only [Bool.false_eq_true, if_false]
      constructor
      · intro hcontra
        cases hcontra
      · intro _
        refine ⟨by trivial, by trivial, by linarith, by linarith⟩

/-- **C7 (witness).** The amended geometry evaluated on the concrete AAPL
candidate (entry 151.2, ATR 2.5). -/
theorem c7_offsets_when_atr_positive_witness :
    sigAAPL.stop_loss = sigAAPL.entry_price - 2 * dfAAPL.atr ∧
    sigAAPL.stop_loss < sigAAPL.entry_price ∧
    sigAAPL.entry_price < sigAAPL.take_profit := by
  have hs : create_signal predBuy dfAAPL "1h" = some sigAAPL := by
    have habs : |(15/2 : ℚ)| = 15/2 := by
      rw [abs_of_pos]
      norm_num
    have hne : SignalKind.BUY ≠ SignalKind.HOLD := by decide
    norm_num [create_signal, predBuy, dfAAPL, sigAAPL, isBuyKind, habs, hne]
  have h := c7_offsets_when_atr_positive predBuy dfAAPL "1h" sigAAPL
    (by norm_num [dfAAPL]) hs
  have hb := h.1 (by rfl)
  exact ⟨hb.1, hb.2.2.1, hb.2.2.2⟩

/-- **C8.** For every feature matrix, timeframe and market context, the
prediction satisfies `confidence = |score|` with `score ∈ [-1, 1]` (hence
`confidence ∈ [0, 1]`), and on the raising branch (empty window or fewer
than 4 feature columns) the fallback returns score 0 and confidence 0. -/
theorem c8_confidence_is_abs_score (m : FeatMatrix) (tf : String)
    (ctx : Option MarketCtx) :
    (run_prediction m tf ctx).confidence = |(run_prediction m tf ctx).score| ∧
    -1 ≤ (run_prediction m tf ctx).score ∧
    (run_prediction m tf ctx).score ≤ 1 ∧
    0 ≤ (run_prediction m tf ctx).confidence ∧
    (run_prediction m tf ctx).confidence ≤ 1 ∧
    (m.rows = [] ∨ m.ncols < 4 →
      (run_prediction m tf ctx).score = 0 ∧
      (run_prediction m tf ctx).confidence = 0) := by
  have habs := run_prediction_conf_abs m tf ctx
  have hrange := run_prediction_score_range m tf ctx
  refine ⟨habs, hrange.1, hrange.2, ?_, ?_, ?_⟩
  · rw [habs]
    exact abs_nonneg _
  · rw [habs]
    rw [abs_le]
    exact hrange
  · intro h
    unfold run_prediction
    rw [if_pos h]
    exact ⟨rfl, rfl⟩

/-- **C8 (witness).** The fallback clause evaluated on the empty window. -/
theorem c8_confidence_is_abs_score_witness :
    (run_prediction mEmpty "1h" none).score = 0 ∧
    (run_prediction mEmpty "1h" none).confidence = 0 :=
  (c8_confidence_is_abs_score mEmpty "1h" none).2.2.2.2.2 (Or.inl rfl)

/-- **C9 (counterexample).** Two bullish candidates with the same
confidence 0.8, listed with the 1h timeframe first and the 15m timeframe
second: `_aggregate_signals` keeps the first-listed (1h) candidate, not the
shorter-timeframe (15m) one, refuting the claimed tie-break in favour of
the shorter timeframe. -/
theorem c9_tie_break_counterexample :
    cTie1h.confidence = cTie15m.confidence ∧
    cTie1h.timeframe = "1h" ∧
    cTie15m.timeframe = "15m" ∧
    aggregate_signals [cTie1h, cTie15m] = [cTie1h] ∧
    aggregate_signals [cTie1h, cTie15m] ≠ [cTie15m] := by
  have hne : cTie1h ≠ cTie15m := by
    intro h
    have h2 := congrArg CandidateSignal.timeframe h
    simp [cTie1h, cTie15m] at h2
  have hagg : aggregate_signals [cTie1h, cTie15m] = [cTie1h] := by
    norm_num [aggregate_signals, pyMax, isBuyKind, isSellKind, cTie1h, cTie15m]
  refine ⟨rfl, rfl, rfl, hagg, ?_⟩
  rw [hagg]
  intro h
  injection h with h1 h2
  exact hne h1

/-- **C9 (amended).** `_aggregate_signals` returns the concatenation of at
most one bullish and at most one bearish candidate; each returned candidate
is a member of its direction sublist of maximal confidence, and every
candidate listed BEFORE it in that sublist has strictly smaller confidence
— i.e. ties go to the earliest-listed candidate (the first timeframe
processed), not to the shorter timeframe.  On the spec's instance
(confidences 0.72, 0.88, 0.65 on 1h, 15m, 5m) it selects the 0.88
candidate. -/
theorem c9_aggregation_selects_first_max (signals : List CandidateSignal) :
    (∃ bPart sPart : List CandidateSignal,
      aggregate_signals signals = bPart ++ sPart ∧
      bPart.length ≤ 1 ∧ sPart.length ≤ 1 ∧
      (bPart = [] ↔ signals.filter (fun s => isBuyKind s.signal_type) = []) ∧
      (sPart = [] ↔ signals.filter (fun s => isSellKind s.signal_type) = []) ∧
      (∀ b ∈ bPart, ∃ l r,
        signals.filter (fun s => isBuyKind s.signal_type) = l ++ b :: r ∧
        (∀ y ∈ signals.filter (fun s => isBuyKind s.signal_type),
          y.confidence ≤ b.confidence) ∧
        ∀ y ∈ l, y.confidence < b.confidence) ∧
      (∀ s ∈ sPart, ∃ l r,
        signals.filter (fun x => isSellKind x.signal_type) = l ++ s :: r ∧
        (∀ y ∈ signals.filter (fun x => isSellKind x.signal_type),
          y.confidence ≤ s.confidence) ∧
        ∀ y ∈ l, y.confidence < s.confidence)) ∧
    aggregate_signals [cBuy72, cBuy88, cBuy65] = [cBuy88] := by
  constructor
  · refine ⟨selectBest (fun s => s.confidence)
        (signals.filter (fun s => isBuyKind s.signal_type)),
      selectBest (fun s => s.confidence)
        (signals.filter (fun s => isSellKind s.signal_type)),
      aggregate_signals_eq signals,
      selectBest_len _ _, selectBest_len _ _,
      selectBest_nil_iff _ _, selectBest_nil_iff _ _,
      selectBest_mem_spec _ _, selectBest_mem_spec _ _⟩
  · norm_num [aggregate_signals, pyMax, isBuyKind, isSellKind,
      cBuy72, cBuy88, cBuy65]

/-- **C10 (counterexample).** The default construction `RiskParameters()`
succeeds although its `max_correlation` field `0.7` lies outside
`(0, 0.10]`: the validator is declared only for `max_position_size` and
`max_risk_per_trade`, so out-of-range stop/take percentages and
correlations raise no validation error, refuting the claimed
if-and-only-if over all fractional fields. -/
theorem c10_unvalidated_field_counterexample :
    mk_risk_parameters (1/50) (1/100) (1/50) (1/20) 10 5 (7/10) =
      .ok defaultRiskParameters ∧
    ¬((0 : ℚ) < 7/10 ∧ (7/10 : ℚ) ≤ 1/10) := by
  constructor
  · norm_num [mk_risk_parameters, defaultRiskParameters]
  · norm_num

/-- **C10 (amended).** Constructing `RiskParameters` succeeds if and only
if `max_position_size` and `max_risk_per_trade` both lie in `(0, 0.10]`;
the stop-loss/take-profit percentages, the integer limits and
`max_correlation` are accepted without validation. -/
theorem c10_validator_covers_two_fields (mps mrpt slp tpp : ℚ)
    (mdt mop : ℤ) (mc : ℚ) :
    (∃ rp, mk_risk_parameters mps mrpt slp tpp mdt mop mc = .ok rp) ↔
      ((0 < mps ∧ mps ≤ 1/10) ∧ (0 < mrpt ∧ mrpt ≤ 1/10)) := by
  unfold mk_risk_parameters
  by_cases h1 : 0 < mps ∧ mps ≤ 1/10
  · rw [if_neg (not_not_intro h1)]
    by_cases h2 : 0 < mrpt ∧ mrpt ≤ 1/10
    · rw [if_neg (not_not_intro h2)]
      constructor
      · intro _
        exact ⟨h1, h2⟩
      · intro _
        exact ⟨_, rfl⟩
    · rw [if_pos h2]
      constructor
      · rintro ⟨rp, hrp⟩
        cases hrp
      · intro h
        exact absurd h.2 h2
  · rw [if_pos h1]
    constructor
    · rintro ⟨rp, hrp⟩
      cases hrp
    · intro h
      exact absurd h.1 h1

/-- **C10 (witness).** A parameter set with wildly out-of-range unvalidated
fields (`stop_loss_percent = 5`, `max_correlation = 99`, zero limits) is
accepted, because its two validated fields are in range. -/
theorem c10_validator_covers_two_fields_witness :
    ∃ rp, mk_risk_parameters (1/20) (1/20) 5 0 0 0 99 = .ok rp :=
  (c10_validator_covers_two_fields (1/20) (1/20) 5 0 0 0 99).mpr
    (by norm_num)

end TradeIA
